import Mathlib

/-!
Verification of the IndigenousAccess Maps overlay modules.

Shallow embedding of the JavaScript modules `lib/map-core.js` (MapHost and
the IAHazardLayers weather-alert adapter), `lib/rivers.js` (IARivers, USGS
gage adapter), the flood-zone module (IAFloodZones) and the tribal-boundary
module (IATribalBoundaries).  Numeric coordinate values are embedded as
rationals; timestamps as integers; JavaScript objects holding optional
fields as structures with `Option` fields; fallible fetches as `Except`.
The mapping library (Leaflet) is an external collaborator; the few of its
operations the modules rely on (layer membership on the map, the layer
control entry list, per-feature style assignment) are embedded by their
documented contracts, noted at each definition.
-/

/- ### Flood-zone module (IAFloodZones) -/

/-- Viewport bounds: west, south, east, north edges in degrees.
Embeds the `L.LatLngBounds` values consumed via `getWest` .. `getNorth`. -/
structure LatLngBounds where
  west : Rat
  south : Rat
  east : Rat
  north : Rat
deriving DecidableEq, Repr

namespace IAFloodZones

/-- `Math.abs` on the embedded numbers. -/
def jsAbs (x : Rat) : Rat := if x < 0 then -x else x

/-- The fixed tolerance `threshold = 0.01` used by `boundsEqual`. -/
def threshold : Rat := mkRat 1 100

/-- `boundsEqual(a, b)`: all four edges differ by strictly less than
the 0.01-degree threshold. -/
def boundsEqual (a b : LatLngBounds) : Bool :=
  decide (jsAbs (a.west - b.west) < threshold) &&
  decide (jsAbs (a.south - b.south) < threshold) &&
  decide (jsAbs (a.east - b.east) < threshold) &&
  decide (jsAbs (a.north - b.north) < threshold)

/-- `loadForCurrentView`, restricted to its query-issuing decision.
Input: the module's `_currentBounds` (None on the first call) and the new
viewport bounds.  Output: the updated `_currentBounds` and the number of
upstream queries issued by this call.  The source returns early when
`_currentBounds` is set and `boundsEqual` holds; otherwise it records the
new bounds and issues exactly one `queryFloodZones` call. -/
def loadForCurrentView (currentBounds : Option LatLngBounds) (bounds : LatLngBounds) :
    Option LatLngBounds × Nat :=
  match currentBounds with
  | some cb => if boundsEqual cb bounds then (some cb, 0) else (some bounds, 1)
  | none => (some bounds, 1)

/-- `URLSearchParams.set`: replace the value under an existing key, else
append the pair at the end. -/
def setParam (k v : String) : List (String × String) → List (String × String)
  | [] => [(k, v)]
  | (ka, va) :: rest => if ka = k then (k, v) :: rest else (ka, va) :: setParam k v rest

/-- `URLSearchParams.get`: first value under a key. -/
def getParam (k : String) : List (String × String) → Option String
  | [] => none
  | (ka, va) :: rest => if ka = k then some va else getParam k rest

/-- A single-quote character (code point 39), used by the template
literal that quotes each zone code. -/
def sq : String := String.singleton (Char.ofNat 39)

/-- The template `'${z}'` applied to one zone code. -/
def quoteZone (z : String) : String := sq ++ z ++ sq

/-- The `where` value built by `queryFloodZones` from `options.zoneFilter`:
`FLD_ZONE IN (` ++ the quoted codes joined with commas ++ `)`. -/
def whereClause (zoneFilter : List String) : String :=
  "FLD_ZONE IN (" ++ String.intercalate "," (zoneFilter.map quoteZone) ++ ")"

/-- The query parameters assembled by `queryFloodZones`.  The serialized
envelope geometry (a JSON string derived only from the bounds) is taken as
an argument `geometryJson`; the remaining parameters are the literal
strings of the source, with `where` set afterwards when a zone filter is
given. -/
def floodZoneQueryParams (geometryJson : String) (zoneFilter : Option (List String)) :
    List (String × String) :=
  let base := [("geometry", geometryJson),
    ("geometryType", "esriGeometryEnvelope"),
    ("spatialRel", "esriSpatialRelIntersects"),
    ("outFields", "FLD_ZONE,ZONE_SUBTY,SFHA_TF,STATIC_BFE,DEPTH,VELOCITY,AR_REVERT,AR_SUBTRV,DUAL_ZONE"),
    ("returnGeometry", "true"),
    ("f", "geojson"),
    ("outSR", "4326")]
  match zoneFilter with
  | some zf => setParam "where" (whereClause zf) base
  | none => base

end IAFloodZones

/- ### River-gage module (IARivers) -/

namespace IARivers

/-- `PARAMETER_CODES.discharge`. -/
def dischargeCode : String := "00060"

/-- `PARAMETER_CODES.gageHeight`. -/
def gageHeightCode : String := "00065"

/-- One entry of `series.values[0].value`: a numeric reading (JavaScript
parses the string with `parseFloat`; we embed the parsed number directly)
and its timestamp string. -/
structure GageReading where
  value : Rat
  dateTime : String
deriving DecidableEq, Repr

/-- One element of `data.value.timeSeries`, projected to the fields the
source reads: `sourceInfo.siteCode[0].value`, `sourceInfo.siteName`,
`sourceInfo.geoLocation.geogLocation.{latitude,longitude}`,
`variable.variableCode[0].value` and `values[0].value`. -/
structure TimeSeries where
  siteCode : String
  siteName : String
  latitude : Rat
  longitude : Rat
  paramCode : String
  values : List GageReading
deriving DecidableEq, Repr

/-- The `value` object of a USGS response; `timeSeries` may be absent. -/
structure UsgsValue where
  timeSeries : Option (List TimeSeries)
deriving DecidableEq, Repr

/-- A USGS instantaneous-values response; `value` may be absent. -/
structure UsgsResponse where
  value : Option UsgsValue
deriving DecidableEq, Repr

/-- A merged output feature: point geometry `[lon, lat]` plus the
properties written by `convertToGeoJSON`. -/
structure GageFeature where
  longitude : Rat
  latitude : Rat
  siteCode : String
  siteName : String
  dateTime : Option String
  streamflow : Option Rat
  gageHeight : Option Rat
deriving DecidableEq, Repr

/-- The produced GeoJSON FeatureCollection (its ordered feature list). -/
structure FeatureCollection where
  features : List GageFeature
deriving DecidableEq, Repr

/-- `siteMap.has(code)` over the insertion-ordered site map, embedded as
an association list keyed by site code. -/
def hasSite (code : String) : List GageFeature → Bool
  | [] => false
  | f :: rest => if f.siteCode = code then true else hasSite code rest

/-- Mutating the feature `siteMap.get(code)` in place: apply `upd` to the
(unique) entry with the given site code. -/
def updateSite (code : String) (upd : GageFeature → GageFeature) :
    List GageFeature → List GageFeature
  | [] => []
  | f :: rest =>
    if f.siteCode = code then upd f :: rest else f :: updateSite code upd rest

/-- `values.length > 0 ? values[values.length - 1] : null`. -/
def latestValue (s : TimeSeries) : Option GageReading := s.values.getLast?

/-- The fresh feature inserted when the site code is seen first:
geometry `[lon, lat]`, properties `siteCode`, `siteName`,
`dateTime: latestValue?.dateTime`, no parameter readings yet. -/
def newSiteFeature (s : TimeSeries) (latest : Option GageReading) : GageFeature :=
  { longitude := s.longitude, latitude := s.latitude, siteCode := s.siteCode,
    siteName := s.siteName, dateTime := latest.map (fun v => v.dateTime),
    streamflow := none, gageHeight := none }

/-- The parameter-assignment tail of the loop body: when the latest value
exists, series with parameter code 00060 set `streamflow`, series with
code 00065 set `gageHeight`; anything else leaves the feature unchanged. -/
def applyReading (s : TimeSeries) (latest : Option GageReading) (f : GageFeature) :
    GageFeature :=
  match latest with
  | none => f
  | some v =>
    if s.paramCode = dischargeCode then { f with streamflow := some v.value }
    else if s.paramCode = gageHeightCode then { f with gageHeight := some v.value }
    else f

/-- One iteration of the `data.value.timeSeries.forEach` loop: insert a
fresh feature for an unseen site code, then apply the parameter reading to
that site's feature. -/
def processSeries (acc : List GageFeature) (s : TimeSeries) : List GageFeature :=
  let latest := latestValue s
  let acc1 := if hasSite s.siteCode acc then acc else acc ++ [newSiteFeature s latest]
  updateSite s.siteCode (applyReading s latest) acc1

/-- `convertToGeoJSON(data)`: guard against an absent `value` or
`value.timeSeries` (empty collection), else fold the series into the
insertion-ordered site map and emit its values. -/
def convertToGeoJSON (data : UsgsResponse) : FeatureCollection :=
  match data.value with
  | none => { features := [] }
  | some v =>
    match v.timeSeries with
    | none => { features := [] }
    | some ts => { features := ts.foldl processSeries [] }

/-- The state the gage refresh tick mutates: `none` embeds `_gageLayer`
being null, `some fc` a layer currently displaying the features `fc`. -/
structure RiversRefreshState where
  gageLayer : Option FeatureCollection
deriving DecidableEq, Repr

/-- One tick of `startAutoRefresh`'s interval callback: on a successful
fetch, convert and (when the layer exists) replace its contents
(`clearLayers` followed by `addData`); on a failed fetch (rejected, which
includes a non-2xx status thrown inside `fetchGageData`), log a warning
and change nothing.  Returns the new state and the console warnings. -/
def gageRefreshTick (fetchResult : Except String UsgsResponse)
    (s : RiversRefreshState) : RiversRefreshState × List String :=
  match fetchResult with
  | Except.ok data =>
    let geojson := convertToGeoJSON data
    match s.gageLayer with
    | some _ => ({ gageLayer := some geojson }, [])
    | none => (s, [])
  | Except.error _ => (s, ["Gage refresh failed"])

/-- The interval callback applies every completion in resolution order,
with no generation check: given the fetch completions as (start index,
result) pairs listed in the order their promises resolve, the layer state
is the left fold of the tick body over them.  The start index is carried
only to describe interleavings; the code never consults it. -/
def applyTickCompletions (completions : List (Nat × Except String UsgsResponse))
    (s : RiversRefreshState) : RiversRefreshState :=
  completions.foldl (fun st c => (gageRefreshTick c.2 st).1) s

end IARivers

/- ### MapHost (map-core.js, IndigenousAccessMaps) -/

namespace MapHost

/-- The host state consumed by the adapters: `_overlayLayers` (the JS
object mapping display name to layer, embedded as an association list
with unique keys, assignment replacing), the layer control's entry list
(the mapping library's control appends one (layer, name) entry per
`addOverlay` call and deletes that layer's entry on `removeLayer`), and
the set of layers currently added to the map (the library's `addTo` is
idempotent per layer object, `removeLayer` removes it).  Layers are
identified by numeric ids standing for JS object identity. -/
structure HostState where
  overlayLayers : List (String × Nat)
  controlEntries : List (Nat × String)
  mapLayers : List Nat
deriving DecidableEq, Repr

/-- Read `_overlayLayers[name]`. -/
def getOverlay (name : String) : List (String × Nat) → Option Nat
  | [] => none
  | (n, l) :: rest => if n = name then some l else getOverlay name rest

/-- `_overlayLayers[name] = layer`: replace under an existing name, else
append. -/
def setOverlay (name : String) (lid : Nat) : List (String × Nat) → List (String × Nat)
  | [] => [(name, lid)]
  | (n, l) :: rest =>
    if n = name then (name, lid) :: rest else (n, l) :: setOverlay name lid rest

/-- `delete _overlayLayers[name]`. -/
def deleteOverlay (name : String) : List (String × Nat) → List (String × Nat)
  | [] => []
  | (n, l) :: rest =>
    if n = name then rest else (n, l) :: deleteOverlay name rest

/-- `layer.addTo(map)`: a no-op when the layer is already on the map. -/
def addLayerToMap (lid : Nat) (ml : List Nat) : List Nat :=
  if lid ∈ ml then ml else ml ++ [lid]

/-- `addOverlayLayer(name, layer, visible)` (map-core.js lines 189-199):
record the layer under the name, append a control entry, and add the
layer to the map when `visible`. -/
def addOverlayLayer (name : String) (lid : Nat) (visible : Bool) (h : HostState) :
    HostState :=
  { overlayLayers := setOverlay name lid h.overlayLayers,
    controlEntries := h.controlEntries ++ [(lid, name)],
    mapLayers := if visible then addLayerToMap lid h.mapLayers else h.mapLayers }

/-- `removeOverlayLayer(name)` (map-core.js lines 205-214): when the name
is registered, remove that layer from the map and from the control and
delete the mapping entry; otherwise do nothing. -/
def removeOverlayLayer (name : String) (h : HostState) : HostState :=
  match getOverlay name h.overlayLayers with
  | none => h
  | some lid =>
    { overlayLayers := deleteOverlay name h.overlayLayers,
      controlEntries := h.controlEntries.filter (fun e => decide (e.1 ≠ lid)),
      mapLayers := h.mapLayers.filter (fun x => decide (x ≠ lid)) }

end MapHost

/- ### Weather-alert module (IAHazardLayers) -/

namespace IAHazardLayers

/-- An NWS alert feature, projected to the properties the module reads:
`severity`, `event`, and `expires` (a timestamp, embedded as integer
epoch milliseconds; `none` embeds an absent or falsy `expires`). -/
structure AlertFeature where
  severity : Option String
  event : Option String
  expires : Option Int
deriving DecidableEq, Repr

/-- A fetched NWS GeoJSON collection (its feature list). -/
structure AlertCollection where
  features : List AlertFeature
deriving DecidableEq, Repr

/-- The `filter` option of `createLayer` at build time `now`
(`new Date()`): keep a feature with an `expires` timestamp only when it
is strictly in the future; keep every feature without one. -/
def alertFilter (now : Int) (f : AlertFeature) : Bool :=
  match f.expires with
  | some e => decide (e > now)
  | none => true

/-- The features the layer built by `createLayer` renders: the fetched
features passed through the expiry filter (the mapping library applies
the `filter` option to each feature). -/
def createLayerFeatures (now : Int) (data : AlertCollection) : List AlertFeature :=
  data.features.filter (alertFilter now)

/-- The state the alert refresh tick mutates: `none` embeds `_layer`
being null, `some fs` a layer currently rendering the features `fs`. -/
structure HazardsRefreshState where
  layer : Option (List AlertFeature)
deriving DecidableEq, Repr

/-- One tick of `IAHazardLayers.startAutoRefresh`'s interval callback at
time `now`: on success, when the layer exists, `clearLayers` then
`addData(data)` (the library re-applies the layer's `filter` option); on
a failed fetch (rejection, including the non-2xx throw inside
`fetchAlerts`), log a warning and change nothing. -/
def alertRefreshTick (now : Int) (fetchResult : Except String AlertCollection)
    (s : HazardsRefreshState) : HazardsRefreshState × List String :=
  match fetchResult with
  | Except.ok data =>
    match s.layer with
    | some _ => ({ layer := some (createLayerFeatures now data) }, [])
    | none => (s, [])
  | Except.error _ => (s, ["Alert refresh failed"])

/-- The adapter state touched by `IAHazardLayers.addToMap`: the module's
`_layer` reference and the host. -/
structure HazModuleState where
  layer : Option Nat
  host : MapHost.HostState
deriving DecidableEq, Repr

/-- The success path of `IAHazardLayers.addToMap` (map-core.js lines
474-504): after a successful fetch it builds a fresh layer object
(`_layer = createLayer(data)`, embedded as the caller-supplied fresh id)
and unconditionally registers it:
`addOverlay('Weather Alerts', _layer, options.visible !== false)`.
No already-added check exists. -/
def addToMapSuccess (freshLayerId : Nat) (visible : Bool) (s : HazModuleState) :
    HazModuleState :=
  { layer := some freshLayerId,
    host := MapHost.addOverlayLayer "Weather Alerts" freshLayerId visible s.host }

end IAHazardLayers

/- ### River-gage module state (rivers.js module-level singletons) -/

namespace IARivers

/-- The module-level mutable state of rivers.js together with the host it
registers overlays on: `_gageLayer`, `_streamLayer` (layer ids, `none`
when null), `_gageData`, `_refreshInterval` (timer handle). -/
structure RiversModuleState where
  gageLayer : Option Nat
  streamLayer : Option Nat
  gageData : Option UsgsResponse
  refreshTimer : Option Nat
  host : MapHost.HostState
deriving DecidableEq, Repr

/-- `stopAutoRefresh()`: clear the interval and null the handle when one
is set. -/
def stopAutoRefresh (s : RiversModuleState) : RiversModuleState :=
  match s.refreshTimer with
  | some _ => { s with refreshTimer := none }
  | none => s

/-- `removeFromMap()` (rivers.js lines 353-367): stop the refresh loop;
deregister and null `_gageLayer` and `_streamLayer` when set; null
`_gageData`. -/
def removeFromMap (s : RiversModuleState) : RiversModuleState :=
  let s1 := stopAutoRefresh s
  let s2 := match s1.gageLayer with
    | some _ =>
      { s1 with host := MapHost.removeOverlayLayer "River Gages" s1.host,
                gageLayer := none }
    | none => s1
  let s3 := match s2.streamLayer with
    | some _ =>
      { s2 with host := MapHost.removeOverlayLayer "Streams" s2.host,
                streamLayer := none }
    | none => s2
  { s3 with gageData := none }

end IARivers

/- ### Tribal-boundaries module (IATribalBoundaries) -/

namespace IATribalBoundaries

/-- The three style presets of `STYLES`. -/
inductive TStyle where
  | styleDefault
  | highlighted
  | selected
deriving DecidableEq, Repr

/-- Module state: the current style of each territory's rendered layer
(association list keyed by the territory's code, in layer order) and
`_selectedFeature` (embedded by the selected territory's code). -/
structure TribalState where
  styles : List (String × TStyle)
  selectedFeature : Option String
deriving DecidableEq, Repr

/-- `layer.setStyle(st)` on the territory with the given code. -/
def setStyle (code : String) (st : TStyle) :
    List (String × TStyle) → List (String × TStyle)
  | [] => []
  | (c, s) :: rest =>
    if c = code then (c, st) :: rest else (c, s) :: setStyle code st rest

/-- `_layer.resetStyle()` with no argument: the mapping library resets
every layer of the group to the style function's result, here the
`default` preset. -/
def resetAllStyles (l : List (String × TStyle)) : List (String × TStyle) :=
  l.map (fun e => (e.1, TStyle.styleDefault))

/-- The click handler installed by `createLayer` (part_001 lines
154-168): when a different feature is selected, reset every style; then
record the clicked feature as selected and give it the selected style. -/
def clickFeature (code : String) (s : TribalState) : TribalState :=
  let styles := match s.selectedFeature with
    | some prev => if prev ≠ code then resetAllStyles s.styles else s.styles
    | none => s.styles
  { styles := setStyle code TStyle.selected styles, selectedFeature := some code }

/-- The mouseover handler: highlight the hovered territory unless it is
the selected feature. -/
def mouseOver (code : String) (s : TribalState) : TribalState :=
  if s.selectedFeature ≠ some code then
    { s with styles := setStyle code TStyle.highlighted s.styles }
  else s

/-- The mouseout handler: restore the default style unless the territory
is the selected feature. -/
def mouseOut (code : String) (s : TribalState) : TribalState :=
  if s.selectedFeature ≠ some code then
    { s with styles := setStyle code TStyle.styleDefault s.styles }
  else s

/-- `focusTribe(tribeCode)` (part_001 lines 228-258), restricted to its
selection effect: `eachLayer` visits every territory and, on a code
match, records it as the selected feature and gives it the selected
style.  It performs no reset of the previously selected feature. -/
def focusTribe (code : String) (s : TribalState) : TribalState :=
  s.styles.foldl
    (fun st e =>
      if e.1 = code then
        { styles := setStyle code TStyle.selected st.styles,
          selectedFeature := some code }
      else st)
    s

/-- The number of territories currently carrying the selected style. -/
def selectedStyledCount (s : TribalState) : Nat :=
  (s.styles.filter (fun e => decide (e.2 = TStyle.selected))).length

end IATribalBoundaries

/- ### Concrete inputs used in the evaluations below -/

/-- A discharge (00060) series for site 12345678 with one reading. -/
def seriesDischarge : IARivers.TimeSeries :=
  ⟨"12345678", "DEMO RIVER AT TOWN", 47, -120, "00060", [⟨42, "2025-01-01T00:00:00Z"⟩]⟩

/-- A gage-height (00065) series for the same site with one reading. -/
def seriesStage : IARivers.TimeSeries :=
  ⟨"12345678", "DEMO RIVER AT TOWN", 47, -120, "00065", [⟨3, "2025-01-01T00:00:00Z"⟩]⟩

/-- A discharge series for the same site carrying a different reading. -/
def seriesDischargeLater : IARivers.TimeSeries :=
  ⟨"12345678", "DEMO RIVER AT TOWN", 47, -120, "00060", [⟨99, "2025-01-01T00:15:00Z"⟩]⟩

/-- The payload fetched by an earlier-started refresh tick. -/
def tickOneResponse : IARivers.UsgsResponse := ⟨some ⟨some [seriesDischarge]⟩⟩

/-- The payload fetched by a later-started refresh tick. -/
def tickTwoResponse : IARivers.UsgsResponse := ⟨some ⟨some [seriesDischargeLater]⟩⟩

/-- A host registration without a "Streams" entry. -/
def hostNoStreams : MapHost.HostState :=
  ⟨[("River Gages", 1)], [(1, "River Gages")], [1]⟩

/-- A rivers-module state with both layers, cached data and a live timer. -/
def riversLive : IARivers.RiversModuleState :=
  ⟨some 1, some 2, some ⟨none⟩, some 7,
   ⟨[("River Gages", 1), ("Streams", 2)],
    [(1, "River Gages"), (2, "Streams")], [1, 2]⟩⟩

/- ### Theorems -/

section
attribute [local semireducible] Rat.sub

/-- `jsAbs` agrees with the absolute value on the rationals. -/
theorem jsAbs_eq_abs (x : Rat) : IAFloodZones.jsAbs x = |x| := by
  unfold IAFloodZones.jsAbs
  split
  · exact (abs_of_neg (by assumption)).symm
  · exact (abs_of_nonneg (le_of_not_lt (by assumption))).symm

/-- `boundsEqual a b` holds exactly when all four edges differ by strictly
less than the threshold. -/
theorem boundsEqual_iff (a b : LatLngBounds) :
    IAFloodZones.boundsEqual a b = true ↔
      |a.west - b.west| < IAFloodZones.threshold ∧
      |a.south - b.south| < IAFloodZones.threshold ∧
      |a.east - b.east| < IAFloodZones.threshold ∧
      |a.north - b.north| < IAFloodZones.threshold := by
  simp [IAFloodZones.boundsEqual, jsAbs_eq_abs, and_assoc]

/-- Claim C4: for two consecutive `loadForCurrentView` calls, if the new
viewport bounds differ from the last-queried bounds by strictly less than
0.01 degrees on every edge, the second call issues zero upstream queries;
if any edge differs by 0.01 degrees or more, it issues exactly one; and
the first call, with no prior bounds recorded, always issues one. -/
theorem loadForCurrentView_bounds_debounce :
    (∀ (cb b : LatLngBounds),
        |b.west - cb.west| < IAFloodZones.threshold →
        |b.south - cb.south| < IAFloodZones.threshold →
        |b.east - cb.east| < IAFloodZones.threshold →
        |b.north - cb.north| < IAFloodZones.threshold →
        (IAFloodZones.loadForCurrentView (some cb) b).2 = 0) ∧
    (∀ (cb b : LatLngBounds),
        (IAFloodZones.threshold ≤ |b.west - cb.west| ∨
         IAFloodZones.threshold ≤ |b.south - cb.south| ∨
         IAFloodZones.threshold ≤ |b.east - cb.east| ∨
         IAFloodZones.threshold ≤ |b.north - cb.north|) →
        (IAFloodZones.loadForCurrentView (some cb) b).2 = 1) ∧
    (∀ b : LatLngBounds, (IAFloodZones.loadForCurrentView none b).2 = 1) := by
  refine ⟨?_, ?_, fun b => rfl⟩
  · intro cb b h1 h2 h3 h4
    have hbe : IAFloodZones.boundsEqual cb b = true := by
      rw [boundsEqual_iff]
      refine ⟨?_, ?_, ?_, ?_⟩ <;> rw [abs_sub_comm] <;> assumption
    simp [IAFloodZones.loadForCurrentView, hbe]
  · intro cb b h
    have hbe : IAFloodZones.boundsEqual cb b = false := by
      rw [Bool.eq_false_iff]
      intro hc
      obtain ⟨k1, k2, k3, k4⟩ := (boundsEqual_iff cb b).mp hc
      rcases h with h | h | h | h <;>
        [exact absurd (abs_sub_comm b.west cb.west ▸ k1) (not_lt.mpr h);
         exact absurd (abs_sub_comm b.south cb.south ▸ k2) (not_lt.mpr h);
         exact absurd (abs_sub_comm b.east cb.east ▸ k3) (not_lt.mpr h);
         exact absurd (abs_sub_comm b.north cb.north ▸ k4) (not_lt.mpr h)]
    simp [IAFloodZones.loadForCurrentView, hbe]

/-- Witness for C4 at concrete bounds: a 0.005-degree shift skips the
query, a 0.01-degree shift and a first call each issue one. -/
theorem loadForCurrentView_bounds_debounce_witness :
    (IAFloodZones.loadForCurrentView (some ⟨0, 0, 1, 1⟩)
        ⟨mkRat 1 200, 0, 1, 1⟩).2 = 0 ∧
    (IAFloodZones.loadForCurrentView (some ⟨0, 0, 1, 1⟩)
        ⟨mkRat 1 100, 0, 1, 1⟩).2 = 1 ∧
    (IAFloodZones.loadForCurrentView none ⟨0, 0, 1, 1⟩).2 = 1 :=
  ⟨loadForCurrentView_bounds_debounce.1 ⟨0, 0, 1, 1⟩ ⟨mkRat 1 200, 0, 1, 1⟩
      (by rw [← jsAbs_eq_abs]; decide) (by rw [← jsAbs_eq_abs]; decide)
      (by rw [← jsAbs_eq_abs]; decide) (by rw [← jsAbs_eq_abs]; decide),
   loadForCurrentView_bounds_debounce.2.1 ⟨0, 0, 1, 1⟩ ⟨mkRat 1 100, 0, 1, 1⟩
      (Or.inl (by rw [← jsAbs_eq_abs]; decide)),
   loadForCurrentView_bounds_debounce.2.2 ⟨0, 0, 1, 1⟩⟩

end

/-- Claim C9: with `zoneFilter = [AE, X]` the `where` query parameter sent
to the FEMA NFHL endpoint is exactly the string
`FLD_ZONE IN (`, a quoted `AE`, a comma, a quoted `X`, `)` — that is,
FLD_ZONE IN with the two zone codes in single quotes. -/
theorem queryFloodZones_where_clause (geometryJson : String) :
    IAFloodZones.getParam "where"
        (IAFloodZones.floodZoneQueryParams geometryJson (some ["AE", "X"]))
      = some ("FLD_ZONE IN (" ++ IAFloodZones.sq ++ "AE" ++ IAFloodZones.sq ++
          "," ++ IAFloodZones.sq ++ "X" ++ IAFloodZones.sq ++ ")") := rfl

/-- Claim C3: a fetched alert feature whose `expires` timestamp is
strictly before the layer-build time is excluded from the rendered layer,
and a feature with no `expires` property is always included. -/
theorem createLayer_excludes_expired_alerts (now : Int)
    (data : IAHazardLayers.AlertCollection) (f : IAHazardLayers.AlertFeature)
    (hf : f ∈ data.features) :
    (∀ e : Int, f.expires = some e → e < now →
        f ∉ IAHazardLayers.createLayerFeatures now data) ∧
    (f.expires = none → f ∈ IAHazardLayers.createLayerFeatures now data) := by
  constructor
  · intro e he hlt hmem
    have hkeep := (List.mem_filter.mp hmem).2
    rw [IAHazardLayers.alertFilter, he] at hkeep
    simp at hkeep
    omega
  · intro he
    refine List.mem_filter.mpr ⟨hf, ?_⟩
    rw [IAHazardLayers.alertFilter, he]

/-- Witness for C3: at build time 100, an alert expired at 50 is dropped
and an alert without `expires` is kept. -/
theorem createLayer_excludes_expired_alerts_witness :
    (⟨none, none, some 50⟩ : IAHazardLayers.AlertFeature) ∉
      IAHazardLayers.createLayerFeatures 100
        ⟨[⟨none, none, some 50⟩, ⟨none, none, none⟩]⟩ ∧
    (⟨none, none, none⟩ : IAHazardLayers.AlertFeature) ∈
      IAHazardLayers.createLayerFeatures 100
        ⟨[⟨none, none, some 50⟩, ⟨none, none, none⟩]⟩ :=
  ⟨(createLayer_excludes_expired_alerts 100
      ⟨[⟨none, none, some 50⟩, ⟨none, none, none⟩]⟩ ⟨none, none, some 50⟩
      (by simp)).1 50 rfl (by decide),
   (createLayer_excludes_expired_alerts 100
      ⟨[⟨none, none, some 50⟩, ⟨none, none, none⟩]⟩ ⟨none, none, none⟩
      (by simp)).2 rfl⟩

/-- Claim C10: when the `value` field or the `value.timeSeries` field is
absent, `convertToGeoJSON` returns a FeatureCollection with an empty
feature list (and, being total, never throws). -/
theorem convertToGeoJSON_missing_value_empty (d : IARivers.UsgsResponse)
    (h : d.value = none ∨ ∃ v, d.value = some v ∧ v.timeSeries = none) :
    IARivers.convertToGeoJSON d = { features := [] } := by
  rcases h with h | ⟨v, hv, hts⟩
  · simp [IARivers.convertToGeoJSON, h]
  · simp [IARivers.convertToGeoJSON, hv, hts]

/-- Witness for C10 at the two malformed payload shapes. -/
theorem convertToGeoJSON_missing_value_empty_witness :
    IARivers.convertToGeoJSON ⟨none⟩ = { features := [] } ∧
    IARivers.convertToGeoJSON ⟨some ⟨none⟩⟩ = { features := [] } :=
  ⟨convertToGeoJSON_missing_value_empty ⟨none⟩ (Or.inl rfl),
   convertToGeoJSON_missing_value_empty ⟨some ⟨none⟩⟩
     (Or.inr ⟨⟨none⟩, rfl, rfl⟩)⟩

/-- Claim C5: a refresh tick whose fetch fails (a rejection, which covers
the non-2xx throw inside the fetch helpers) logs a warning and leaves the
displayed layer exactly as it was, for both the river-gage and the
weather-alert refresh loops. -/
theorem refreshTick_failure_preserves_layer :
    (∀ (e : String) (s : IARivers.RiversRefreshState),
        (IARivers.gageRefreshTick (Except.error e) s).1 = s ∧
        (IARivers.gageRefreshTick (Except.error e) s).2 ≠ []) ∧
    (∀ (now : Int) (e : String) (s : IAHazardLayers.HazardsRefreshState),
        (IAHazardLayers.alertRefreshTick now (Except.error e) s).1 = s ∧
        (IAHazardLayers.alertRefreshTick now (Except.error e) s).2 ≠ []) :=
  ⟨fun _ _ => ⟨rfl, by simp [IARivers.gageRefreshTick]⟩,
   fun _ _ _ => ⟨rfl, by simp [IAHazardLayers.alertRefreshTick]⟩⟩

/-- Claim C6: `removeFromMap` is idempotent — a second call never throws
(the embedding is total) and produces the same state as the first — and
removing an overlay name that is not registered on the host is a no-op. -/
theorem removeFromMap_idempotent :
    (∀ s : IARivers.RiversModuleState,
        IARivers.removeFromMap (IARivers.removeFromMap s) =
          IARivers.removeFromMap s) ∧
    (∀ (name : String) (h : MapHost.HostState),
        MapHost.getOverlay name h.overlayLayers = none →
        MapHost.removeOverlayLayer name h = h) := by
  constructor
  · intro s
    rcases s with ⟨g, st, d, t, host⟩
    rcases g <;> rcases st <;> rcases t <;> rfl
  · intro name h hnone
    simp [MapHost.removeOverlayLayer, hnone]

/-- Witness for C6: double removal from a fully-live rivers state, and
removal of the unregistered name "Streams" from a host that only has
"River Gages". -/
theorem removeFromMap_idempotent_witness :
    IARivers.removeFromMap (IARivers.removeFromMap riversLive) =
      IARivers.removeFromMap riversLive ∧
    MapHost.removeOverlayLayer "Streams" hostNoStreams = hostNoStreams :=
  ⟨removeFromMap_idempotent.1 riversLive,
   removeFromMap_idempotent.2 "Streams" hostNoStreams (by decide)⟩

/-- Claim C7 evaluated on the code (refuting it): starting from an empty
host, two consecutive successful `IAHazardLayers.addToMap` calls (the
second creating a fresh layer object, id 2) leave the host registration
different from the state after one call: the layer control carries two
entries under the display name "Weather Alerts" and the first layer is
still on the map.  The code performs no already-added check. -/
theorem addToMap_double_registers :
    (IAHazardLayers.addToMapSuccess 2 true
        (IAHazardLayers.addToMapSuccess 1 true ⟨none, ⟨[], [], []⟩⟩)).host
      = ⟨[("Weather Alerts", 2)],
         [(1, "Weather Alerts"), (2, "Weather Alerts")], [1, 2]⟩ ∧
    (IAHazardLayers.addToMapSuccess 2 true
        (IAHazardLayers.addToMapSuccess 1 true ⟨none, ⟨[], [], []⟩⟩)).host
      ≠ (IAHazardLayers.addToMapSuccess 1 true ⟨none, ⟨[], [], []⟩⟩).host := by
  decide

/-- Claim C8 evaluated on the code (refuting it): with two territories,
clicking territory "colville" and then running `focusTribe "lummi"`
leaves BOTH territories in the selected style — `focusTribe` records the
new selection and styles it but never resets the previous one — while
the claim requires exactly one. -/
theorem focusTribe_double_selection :
    IATribalBoundaries.selectedStyledCount
        (IATribalBoundaries.focusTribe "lummi"
          (IATribalBoundaries.clickFeature "colville"
            ⟨[("colville", IATribalBoundaries.TStyle.styleDefault),
              ("lummi", IATribalBoundaries.TStyle.styleDefault)], none⟩)) = 2 ∧
    (IATribalBoundaries.focusTribe "lummi"
        (IATribalBoundaries.clickFeature "colville"
          ⟨[("colville", IATribalBoundaries.TStyle.styleDefault),
            ("lummi", IATribalBoundaries.TStyle.styleDefault)], none⟩)).selectedFeature
      = some "lummi" := by
  decide

/-- Claim C1 evaluated on the code (refuting it): the interval callback
applies every fetch completion in resolution order with no generation
check.  In the interleaving where tick 1 starts, tick 2 starts later,
tick 2's fetch resolves and is applied first, and tick 1's fetch resolves
last, the layer ends up holding tick 1's (older) data instead of
tick 2's, although the two payloads differ. -/
theorem gageRefresh_lostUpdate :
    IARivers.applyTickCompletions
        [(2, Except.ok tickTwoResponse), (1, Except.ok tickOneResponse)]
        ⟨some ⟨[]⟩⟩
      = ⟨some (IARivers.convertToGeoJSON tickOneResponse)⟩ ∧
    IARivers.convertToGeoJSON tickOneResponse ≠
      IARivers.convertToGeoJSON tickTwoResponse := by
  constructor
  · rfl
  · decide
section C2Lemmas

open IARivers

/-- `applyReading` never changes the site code. -/
theorem applyReading_siteCode (s : TimeSeries) (l : Option GageReading)
    (f : GageFeature) : (applyReading s l f).siteCode = f.siteCode := by
  unfold applyReading
  cases l with
  | none => rfl
  | some v =>
    dsimp only
    split
    · rfl
    · split <;> rfl

/-- `applyReading` never erases a populated `streamflow`. -/
theorem applyReading_streamflow_mono (s : TimeSeries) (l : Option GageReading)
    (f : GageFeature) (h : f.streamflow.isSome) :
    (applyReading s l f).streamflow.isSome := by
  unfold applyReading
  cases l with
  | none => exact h
  | some v =>
    dsimp only
    split
    · rfl
    · split <;> exact h

/-- `applyReading` never erases a populated `gageHeight`. -/
theorem applyReading_gageHeight_mono (s : TimeSeries) (l : Option GageReading)
    (f : GageFeature) (h : f.gageHeight.isSome) :
    (applyReading s l f).gageHeight.isSome := by
  unfold applyReading
  cases l with
  | none => exact h
  | some v =>
    dsimp only
    split
    · exact h
    · split
      · rfl
      · exact h

/-- A discharge series with at least one reading populates `streamflow`. -/
theorem applyReading_sets_streamflow (s : TimeSeries) (f : GageFeature)
    (hp : s.paramCode = dischargeCode) (hv : s.values ≠ []) :
    (applyReading s (latestValue s) f).streamflow.isSome := by
  have : (latestValue s).isSome := by
    unfold latestValue
    exact List.getLast?_isSome.mpr hv
  obtain ⟨v, hvv⟩ := Option.isSome_iff_exists.mp this
  rw [hvv]
  simp [applyReading, hp]

/-- A gage-height series with at least one reading populates `gageHeight`. -/
theorem applyReading_sets_gageHeight (s : TimeSeries) (f : GageFeature)
    (hp : s.paramCode = gageHeightCode) (hv : s.values ≠ []) :
    (applyReading s (latestValue s) f).gageHeight.isSome := by
  have : (latestValue s).isSome := by
    unfold latestValue
    exact List.getLast?_isSome.mpr hv
  obtain ⟨v, hvv⟩ := Option.isSome_iff_exists.mp this
  rw [hvv]
  have hne : s.paramCode ≠ dischargeCode := by
    rw [hp]; decide
  simp [applyReading, hp, hne, dischargeCode, gageHeightCode]

/-- Processing a series into the empty site map yields exactly the fresh
feature with the reading applied. -/
theorem processSeries_nil (s : TimeSeries) :
    processSeries [] s =
      [applyReading s (latestValue s) (newSiteFeature s (latestValue s))] := by
  unfold processSeries
  simp [hasSite, updateSite, newSiteFeature]

/-- Processing a series whose site code matches the singleton site map
updates that single feature in place. -/
theorem processSeries_singleton (f : GageFeature) (s : TimeSeries)
    (h : f.siteCode = s.siteCode) :
    processSeries [f] s = [applyReading s (latestValue s) f] := by
  unfold processSeries
  simp [hasSite, updateSite, h]

/-- Invariant of the `forEach` fold: starting from a singleton site map
whose feature carries site code `c`, a run of series all carrying `c`
keeps the map a singleton with site code `c`, preserves populated
readings, and populates a reading for every series that offers one. -/
theorem foldl_processSeries_inv (c : String) (ts : List TimeSeries) :
    ∀ f : GageFeature, f.siteCode = c → (∀ s ∈ ts, s.siteCode = c) →
    ∃ g : GageFeature,
      ts.foldl processSeries [f] = [g] ∧ g.siteCode = c ∧
      (f.streamflow.isSome → g.streamflow.isSome) ∧
      (f.gageHeight.isSome → g.gageHeight.isSome) ∧
      ((∃ s ∈ ts, s.paramCode = dischargeCode ∧ s.values ≠ []) →
        g.streamflow.isSome) ∧
      ((∃ s ∈ ts, s.paramCode = gageHeightCode ∧ s.values ≠ []) →
        g.gageHeight.isSome) := by
  induction ts with
  | nil =>
    intro f hf _
    exact ⟨f, rfl, hf, id, id, by simp, by simp⟩
  | cons s rest ih =>
    intro f hf hall
    have hs : s.siteCode = c := hall s (List.mem_cons_self s rest)
    have hstep : processSeries [f] s = [applyReading s (latestValue s) f] :=
      processSeries_singleton f s (hf.trans hs.symm)
    have hf1 : (applyReading s (latestValue s) f).siteCode = c :=
      (applyReading_siteCode s (latestValue s) f).trans hf
    obtain ⟨g, hg, hgc, hm1, hm2, ha1, ha2⟩ :=
      ih (applyReading s (latestValue s) f) hf1
        (fun x hx => hall x (List.mem_cons_of_mem s hx))
    refine ⟨g, ?_, hgc, ?_, ?_, ?_, ?_⟩
    · rw [List.foldl_cons, hstep]
      exact hg
    · intro h
      exact hm1 (applyReading_streamflow_mono s (latestValue s) f h)
    · intro h
      exact hm2 (applyReading_gageHeight_mono s (latestValue s) f h)
    · rintro ⟨x, hx, hxp, hxv⟩
      rcases List.mem_cons.mp hx with hx0 | hxr
      · subst hx0
        exact hm1 (applyReading_sets_streamflow x f hxp hxv)
      · exact ha1 ⟨x, hxr, hxp, hxv⟩
    · rintro ⟨x, hx, hxp, hxv⟩
      rcases List.mem_cons.mp hx with hx0 | hxr
      · subst hx0
        exact hm2 (applyReading_sets_gageHeight x f hxp hxv)
      · exact ha2 ⟨x, hxr, hxp, hxv⟩

end C2Lemmas

/-- Claim C2: a USGS response whose (nonempty) `timeSeries` list shares a
single site code produces exactly one feature — never one per series —
carrying that site code, with `streamflow` populated whenever some 00060
series offers a reading and `gageHeight` populated whenever some 00065
series offers one. -/
theorem convertToGeoJSON_merges_series_by_site_code
    (ts : List IARivers.TimeSeries) (c : String) (hne : ts ≠ [])
    (hall : ∀ s ∈ ts, s.siteCode = c) :
    ∃ f : IARivers.GageFeature,
      (IARivers.convertToGeoJSON ⟨some ⟨some ts⟩⟩).features = [f] ∧
      f.siteCode = c ∧
      ((∃ s ∈ ts, s.paramCode = IARivers.dischargeCode ∧ s.values ≠ []) →
        f.streamflow.isSome) ∧
      ((∃ s ∈ ts, s.paramCode = IARivers.gageHeightCode ∧ s.values ≠ []) →
        f.gageHeight.isSome) := by
  open IARivers in
  match ts, hne with
  | s0 :: rest, _ =>
    have h0 : s0.siteCode = c := hall s0 (List.mem_cons_self s0 rest)
    have hf0c :
        (applyReading s0 (latestValue s0)
          (newSiteFeature s0 (latestValue s0))).siteCode = c := by
      rw [applyReading_siteCode]
      exact h0
    obtain ⟨g, hg, hgc, hm1, hm2, ha1, ha2⟩ :=
      foldl_processSeries_inv c rest
        (applyReading s0 (latestValue s0) (newSiteFeature s0 (latestValue s0)))
        hf0c (fun x hx => hall x (List.mem_cons_of_mem s0 hx))
    refine ⟨g, ?_, hgc, ?_, ?_⟩
    · show (List.foldl processSeries [] (s0 :: rest)) = [g]
      rw [List.foldl_cons, processSeries_nil]
      exact hg
    · rintro ⟨x, hx, hxp, hxv⟩
      rcases List.mem_cons.mp hx with hx0 | hxr
      · subst hx0
        exact hm1 (applyReading_sets_streamflow x
          (newSiteFeature x (latestValue x)) hxp hxv)
      · exact ha1 ⟨x, hxr, hxp, hxv⟩
    · rintro ⟨x, hx, hxp, hxv⟩
      rcases List.mem_cons.mp hx with hx0 | hxr
      · subst hx0
        exact hm2 (applyReading_sets_gageHeight x
          (newSiteFeature x (latestValue x)) hxp hxv)
      · exact ha2 ⟨x, hxr, hxp, hxv⟩

/-- Witness for C2: two series (00060 and 00065) for site 12345678 merge
into a single feature. -/
theorem convertToGeoJSON_merges_witness :
    ∃ f : IARivers.GageFeature,
      (IARivers.convertToGeoJSON
          ⟨some ⟨some [seriesDischarge, seriesStage]⟩⟩).features = [f] ∧
      f.siteCode = "12345678" ∧
      ((∃ s ∈ [seriesDischarge, seriesStage],
          s.paramCode = IARivers.dischargeCode ∧ s.values ≠ []) →
        f.streamflow.isSome) ∧
      ((∃ s ∈ [seriesDischarge, seriesStage],
          s.paramCode = IARivers.gageHeightCode ∧ s.values ≠ []) →
        f.gageHeight.isSome) :=
  convertToGeoJSON_merges_series_by_site_code
    [seriesDischarge, seriesStage] "12345678" (by decide)
    (by simp [seriesDischarge, seriesStage])
